import Mathlib

/-!
Verification of the event-planner repository's core logic: the calendar
grid engine (`src/utils/dateUtils.ts`), the per-day event query and
dashboard statistics (`Dashboard`, `EventStorage`), and the venue
configuration resolution (`ConfigService`, `ConfigPage`).

Modelling conventions:
* A JavaScript `Date` is a local wall-clock instant.  We represent it by
  its calendar day (an epoch day number, `Int`) together with the minutes
  past local midnight (`Nat`).  `new Date(d.getFullYear(), d.getMonth(),
  d.getDate())` — the truncation-to-midnight idiom used throughout the
  code — keeps the day number and zeroes the time of day, and comparing
  two midnight `Date` values compares their day numbers.
* `new Date(year, month, 1)` for a zero-based in-range `month` is the
  proleptic Gregorian conversion `civilDays year month 1`, and
  `getDay()` is `weekday`, normalised so that day 0 (1970-01-01) is a
  Thursday (weekday 4), matching JavaScript.
-/

namespace EventPlanner

/-- A wall-clock instant: epoch day number plus minutes past midnight. -/
structure DateTime where
  day : Int
  mins : Nat
deriving Repr, DecidableEq

/-- The timestamp (`Date.getTime()` up to scale): total minutes. -/
def DateTime.toMin (t : DateTime) : Int := t.day * 1440 + (t.mins : Int)

/-- Truncation to local midnight: `new Date(d.getFullYear(), d.getMonth(), d.getDate())`. -/
def startOfDay (t : DateTime) : DateTime := ⟨t.day, 0⟩

/-- An event record (the fields the core logic reads). -/
structure Event where
  id : String
  title : String
  startDate : DateTime
  endDate : DateTime
  category : String
  priority : String
deriving Repr, DecidableEq

/-- The day-interval membership test of `Dashboard.getEventsForDate`
(`part_000`), `EventStorage.getEventsForDate` and
`Calendar.getEventsForDate`: truncate the target date and both event
endpoints to midnight and test `targetDate >= startDate && targetDate <= endDate`. -/
def onDate (date : DateTime) (e : Event) : Bool :=
  decide ((startOfDay e.startDate).toMin ≤ (startOfDay date).toMin) &&
  decide ((startOfDay date).toMin ≤ (startOfDay e.endDate).toMin)

/-- The comparator of `Dashboard.getEventsForDate`:
`(a, b) => new Date(a.startDate).getTime() - new Date(b.startDate).getTime()`. -/
def startLE : Event → Event → Prop := fun a b => a.startDate.toMin ≤ b.startDate.toMin

instance : DecidableRel startLE :=
  fun a b => inferInstanceAs (Decidable (a.startDate.toMin ≤ b.startDate.toMin))

instance : IsTotal Event startLE := ⟨fun a b => Int.le_total _ _⟩

instance : IsTrans Event startLE := ⟨fun _ _ _ hab hbc => Int.le_trans hab hbc⟩

/-- Model of `Dashboard.getEventsForDate` (`part_000`, lines 327–338): filter the
event list to the events whose whole-day interval contains the target
day, then sort by `startDate` ascending (JavaScript `Array.sort` is a
stable sort; it is modelled by the stable `insertionSort`).
(`EventStorage.getEventsForDate` produces the same sequence: it filters
`loadAllEvents()`, which is sorted by `startDate` ascending.) -/
def getEventsForDate (events : List Event) (date : DateTime) : List Event :=
  List.insertionSort startLE (events.filter (onDate date))

lemma getEventsForDate_perm (events : List Event) (date : DateTime) :
    (getEventsForDate events date).Perm (events.filter (onDate date)) :=
  List.perm_insertionSort startLE _

/-- C1: for every event list and date, the events-on-date query returns
exactly those events whose whole-day interval
`[startOfDay(startDate), startOfDay(endDate)]` contains `startOfDay(date)`
(both endpoints inclusive, time of day discarded), and the returned
sequence is ordered by `startDate` ascending. -/
theorem getEventsForDate_spec (events : List Event) (date : DateTime) :
    (∀ e, e ∈ getEventsForDate events date ↔
      e ∈ events ∧
        (startOfDay e.startDate).day ≤ (startOfDay date).day ∧
        (startOfDay date).day ≤ (startOfDay e.endDate).day) ∧
    (getEventsForDate events date).Perm (events.filter (onDate date)) ∧
    (getEventsForDate events date).Sorted startLE := by
  refine ⟨?_, getEventsForDate_perm events date, ?_⟩
  · intro e
    rw [(getEventsForDate_perm events date).mem_iff, List.mem_filter]
    simp only [onDate, startOfDay, DateTime.toMin, Bool.and_eq_true, decide_eq_true_eq,
      Nat.cast_zero, add_zero]
    constructor
    · rintro ⟨h1, h2, h3⟩
      exact ⟨h1, by omega, by omega⟩
    · rintro ⟨h1, h2, h3⟩
      exact ⟨h1, by omega, by omega⟩
  · exact List.sorted_insertionSort startLE (events.filter (onDate date))

/-- The Gregorian leap-year rule (as realised by JavaScript `Date` month
arithmetic). -/
def isLeapYear (y : Int) : Bool := (y % 4 == 0 && y % 100 != 0) || y % 400 == 0

/-- Length of a zero-based month, i.e. `new Date(year, month + 1, 0).getDate()`
(the idiom of `getDaysInMonth` in `dateUtils.ts`). -/
def daysInMonth (y : Int) (m : Nat) : Nat :=
  if m = 1 then (if isLeapYear y then 29 else 28)
  else if m = 3 ∨ m = 5 ∨ m = 8 ∨ m = 10 then 30
  else 31

/-- Epoch day number of the calendar day `(y, m, d)` with `m` zero-based:
the day-valued content of `new Date(y, m, d)`.  Standard proleptic
Gregorian civil-day conversion, day 0 = 1970-01-01. -/
def civilDays (y : Int) (m : Nat) (d : Int) : Int :=
  let m1 : Int := (m : Int) + 1
  let y2 : Int := if m1 ≤ 2 then y - 1 else y
  let era : Int := Int.fdiv y2 400
  let yoe : Int := y2 - era * 400
  let doy : Int := (153 * (m1 + (if 2 < m1 then -3 else 9)) + 2) / 5 + d - 1
  let doe : Int := yoe * 365 + yoe / 4 - yoe / 100 + doy
  era * 146097 + doe - 719468

/-- Weekday (`Date.getDay()`) of an epoch day number, 0 = Sunday.
Day 0 (1970-01-01) is a Thursday (4), matching JavaScript. -/
def weekday (d : Int) : Int := (d + 4) % 7

lemma civilDays_day (y : Int) (m : Nat) (d : Int) :
    civilDays y m d = civilDays y m 1 + (d - 1) := by
  simp only [civilDays]
  ring

/-- The model's month lengths agree with the civil-day conversion on a
leap year. -/
example : (List.range 12).map (fun m => civilDays 2024 (m + 1) 1 - civilDays 2024 m 1) =
    (List.range 12).map (fun m => (daysInMonth 2024 m : Int)) := by decide

/-- The model's month lengths agree with the civil-day conversion on a
common year. -/
example : (List.range 12).map (fun m => civilDays 2023 (m + 1) 1 - civilDays 2023 m 1) =
    (List.range 12).map (fun m => (daysInMonth 2023 m : Int)) := by decide

/-- The grid anchor of `getCalendarGrid` (`dateUtils.ts`, lines 94–117):
`startDate.setDate(startDate.getDate() - startDate.getDay())`, i.e. the
first of the month stepped back to the preceding Sunday. -/
def gridAnchor (y : Int) (m : Nat) : Int :=
  civilDays y m 1 - weekday (civilDays y m 1)

/-- Model of `getCalendarGrid` (`dateUtils.ts`, lines 94–117): 42 consecutive
calendar days starting at the anchor, pushed into rows of 7.  Cell
`(w, j)` holds day `anchor + 7 * w + j`; the cells are midnight dates,
represented by their day numbers. -/
def getCalendarGrid (y : Int) (m : Nat) : List (List Int) :=
  (List.range 6).map (fun w => (List.range 7).map (fun j => gridAnchor y m + ((7 * w + j : Nat) : Int)))

lemma getCalendarGrid_flatten (y : Int) (m : Nat) :
    (getCalendarGrid y m).flatten =
      (List.range 42).map (fun i => gridAnchor y m + ((i : Nat) : Int)) := by
  simp only [getCalendarGrid]
  rfl

lemma daysInMonth_bounds (y : Int) (m : Nat) :
    1 ≤ daysInMonth y m ∧ daysInMonth y m ≤ 31 := by
  unfold daysInMonth
  split
  · split <;> omega
  · split <;> omega

/-- C2: for every year and zero-based month, the calendar grid is the
42 consecutive calendar days starting at the most recent Sunday at or
before the first of the month (zero days back when the 1st is itself a
Sunday), partitioned into 6 rows of 7 cells. -/
theorem getCalendarGrid_spec (y : Int) (m : Nat) (hm : m < 12) :
    (getCalendarGrid y m).length = 6 ∧
    (∀ row ∈ getCalendarGrid y m, row.length = 7) ∧
    (getCalendarGrid y m).flatten =
      (List.range 42).map (fun i => gridAnchor y m + ((i : Nat) : Int)) ∧
    weekday (gridAnchor y m) = 0 ∧
    gridAnchor y m ≤ civilDays y m 1 ∧
    (∀ d : Int, weekday d = 0 → d ≤ civilDays y m 1 → d ≤ gridAnchor y m) ∧
    (weekday (civilDays y m 1) = 0 → gridAnchor y m = civilDays y m 1) := by
  refine ⟨?_, ?_, getCalendarGrid_flatten y m, ?_, ?_, ?_, ?_⟩
  · simp [getCalendarGrid]
  · intro row hrow
    simp only [getCalendarGrid, List.mem_map] at hrow
    obtain ⟨w, _, rfl⟩ := hrow
    simp
  · unfold gridAnchor weekday
    omega
  · unfold gridAnchor weekday
    omega
  · intro d hd hle
    unfold gridAnchor weekday
    unfold weekday at hd
    omega
  · intro h0
    unfold gridAnchor
    omega

/-- Witness for C2 at the concrete month February 2024. -/
theorem getCalendarGrid_spec_witness :
    1 < 12 ∧
    ((getCalendarGrid 2024 1).length = 6 ∧
    (∀ row ∈ getCalendarGrid 2024 1, row.length = 7) ∧
    (getCalendarGrid 2024 1).flatten =
      (List.range 42).map (fun i => gridAnchor 2024 1 + ((i : Nat) : Int)) ∧
    weekday (gridAnchor 2024 1) = 0 ∧
    gridAnchor 2024 1 ≤ civilDays 2024 1 1 ∧
    (∀ d : Int, weekday d = 0 → d ≤ civilDays 2024 1 1 → d ≤ gridAnchor 2024 1) ∧
    (weekday (civilDays 2024 1 1) = 0 → gridAnchor 2024 1 = civilDays 2024 1 1)) :=
  ⟨by omega, getCalendarGrid_spec 2024 1 (by omega)⟩

/-- C3: for every year and zero-based month, the 42 grid cells include
both the 1st and the last calendar day of that month. -/
theorem getCalendarGrid_covers (y : Int) (m : Nat) (hm : m < 12) :
    civilDays y m 1 ∈ (getCalendarGrid y m).flatten ∧
    civilDays y m (daysInMonth y m) ∈ (getCalendarGrid y m).flatten := by
  have hflat := getCalendarGrid_flatten y m
  have hd := daysInMonth_bounds y m
  constructor
  · rw [hflat, List.mem_map]
    refine ⟨(weekday (civilDays y m 1)).toNat, List.mem_range.mpr ?_, ?_⟩
    · unfold weekday
      omega
    · unfold gridAnchor weekday
      omega
  · rw [hflat, List.mem_map]
    refine ⟨(weekday (civilDays y m 1)).toNat + (daysInMonth y m - 1),
      List.mem_range.mpr ?_, ?_⟩
    · unfold weekday
      omega
    · rw [civilDays_day y m (daysInMonth y m)]
      unfold gridAnchor weekday
      omega

/-- Witness for C3 at the concrete month February 2024. -/
theorem getCalendarGrid_covers_witness :
    1 < 12 ∧
    (civilDays 2024 1 1 ∈ (getCalendarGrid 2024 1).flatten ∧
    civilDays 2024 1 (daysInMonth 2024 1) ∈ (getCalendarGrid 2024 1).flatten) :=
  ⟨by omega, getCalendarGrid_covers 2024 1 (by omega)⟩

/-- A location entry of `VenueConfig.locations` (`models/VenueConfig`). -/
structure LocationOption where
  id : String
  name : String
  description : Option String
  capacity : Option Int
  amenities : Option (List String)
  isActive : Bool
deriving Repr, DecidableEq

/-- A custom category entry of `VenueConfig.customCategories`. -/
structure CategoryOption where
  id : String
  name : String
  color : String
  icon : Option String
  isActive : Bool
deriving Repr, DecidableEq

/-- A custom priority entry of `VenueConfig.customPriorities`. -/
structure PriorityOption where
  id : String
  name : String
  color : String
  level : Int
  isActive : Bool
deriving Repr, DecidableEq

/-- The five feature flags of `VenueConfig.features`. -/
structure Features where
  showAttendees : Bool
  showLocation : Bool
  showDescription : Bool
  allowRecurring : Bool
  allowFileAttachments : Bool
deriving Repr, DecidableEq

/-- The `VenueConfig` interface (`models/VenueConfig`).  Optional
interface fields are `Option`; `?`-less fields are plain. -/
structure VenueConfig where
  companyName : String
  logo : String
  tagline : Option String
  primaryColor : String
  secondaryColor : String
  venueName : String
  venueAddress : Option String
  venuePhone : Option String
  venueEmail : Option String
  venueWebsite : Option String
  locations : List LocationOption
  customCategories : Option (List CategoryOption)
  customPriorities : Option (List PriorityOption)
  defaultEventDuration : Int
  defaultCategory : String
  defaultPriority : String
  timeFormat : String
  dateFormat : String
  firstDayOfWeek : Int
  features : Features
deriving Repr, DecidableEq

/-- A `Partial<VenueConfig>` value: every top-level field may be absent.
An absent field (`none`) is a key not present in the object, so the
spread `{ ...current, ...updates }` leaves it untouched. -/
structure ConfigPatch where
  companyName : Option String := none
  logo : Option String := none
  tagline : Option (Option String) := none
  primaryColor : Option String := none
  secondaryColor : Option String := none
  venueName : Option String := none
  venueAddress : Option (Option String) := none
  venuePhone : Option (Option String) := none
  venueEmail : Option (Option String) := none
  venueWebsite : Option (Option String) := none
  locations : Option (List LocationOption) := none
  customCategories : Option (Option (List CategoryOption)) := none
  customPriorities : Option (Option (List PriorityOption)) := none
  defaultEventDuration : Option Int := none
  defaultCategory : Option String := none
  defaultPriority : Option String := none
  timeFormat : Option String := none
  dateFormat : Option String := none
  firstDayOfWeek : Option Int := none
  features : Option Features := none
deriving Repr, DecidableEq

/-- The shallow field-by-field merge `{ ...current, ...updates }` used by
`ConfigService.updateConfig` (`ConfigService.ts`, line 104): a field
present in `updates` overrides, an absent field falls back to `current`.
The `features` sub-object is replaced as a whole unit. -/
def mergeConfig (current : VenueConfig) (updates : ConfigPatch) : VenueConfig where
  companyName := updates.companyName.getD current.companyName
  logo := updates.logo.getD current.logo
  tagline := updates.tagline.getD current.tagline
  primaryColor := updates.primaryColor.getD current.primaryColor
  secondaryColor := updates.secondaryColor.getD current.secondaryColor
  venueName := updates.venueName.getD current.venueName
  venueAddress := updates.venueAddress.getD current.venueAddress
  venuePhone := updates.venuePhone.getD current.venuePhone
  venueEmail := updates.venueEmail.getD current.venueEmail
  venueWebsite := updates.venueWebsite.getD current.venueWebsite
  locations := updates.locations.getD current.locations
  customCategories := updates.customCategories.getD current.customCategories
  customPriorities := updates.customPriorities.getD current.customPriorities
  defaultEventDuration := updates.defaultEventDuration.getD current.defaultEventDuration
  defaultCategory := updates.defaultCategory.getD current.defaultCategory
  defaultPriority := updates.defaultPriority.getD current.defaultPriority
  timeFormat := updates.timeFormat.getD current.timeFormat
  dateFormat := updates.dateFormat.getD current.dateFormat
  firstDayOfWeek := updates.firstDayOfWeek.getD current.firstDayOfWeek
  features := updates.features.getD current.features

lemma getD_getD {α : Type} (o : Option α) (x : α) : o.getD (o.getD x) = o.getD x := by
  cases o <;> rfl

/-- C7: the shallow configuration merge is idempotent:
`merge(merge(a, b), b) = merge(a, b)` for every base configuration `a`
and partial override `b`. -/
theorem mergeConfig_idem (a : VenueConfig) (b : ConfigPatch) :
    mergeConfig (mergeConfig a b) b = mergeConfig a b := by
  simp [mergeConfig, getD_getD]

/-- Model of `ConfigService.exportConfig` (`ConfigService.ts`, lines 174–177): it
serialises the whole configuration; parsing the produced JSON text
yields a document in which every top-level field is present with the
configuration's value.  The document is modelled by that patch. -/
def exportConfig (cfg : VenueConfig) : ConfigPatch where
  companyName := some cfg.companyName
  logo := some cfg.logo
  tagline := some cfg.tagline
  primaryColor := some cfg.primaryColor
  secondaryColor := some cfg.secondaryColor
  venueName := some cfg.venueName
  venueAddress := some cfg.venueAddress
  venuePhone := some cfg.venuePhone
  venueEmail := some cfg.venueEmail
  venueWebsite := some cfg.venueWebsite
  locations := some cfg.locations
  customCategories := some cfg.customCategories
  customPriorities := some cfg.customPriorities
  defaultEventDuration := some cfg.defaultEventDuration
  defaultCategory := some cfg.defaultCategory
  defaultPriority := some cfg.defaultPriority
  timeFormat := some cfg.timeFormat
  dateFormat := some cfg.dateFormat
  firstDayOfWeek := some cfg.firstDayOfWeek
  features := some cfg.features

/-- Model of `ConfigService.importConfig` (`ConfigService.ts`, lines 179–188):
parse the text (`none` models a parse failure, i.e. `JSON.parse`
throwing) and on success apply `updateConfig`, i.e. merge the document
over the current configuration; on failure return `false` and leave the
configuration unchanged. -/
def importConfig (current : VenueConfig) (doc : Option ConfigPatch) : Bool × VenueConfig :=
  match doc with
  | none => (false, current)
  | some p => (true, mergeConfig current p)

/-- C8: import of an exported configuration is a round trip — for every
current configuration and every exported configuration `cfg`, the import
succeeds and yields `cfg` in all fields. -/
theorem importConfig_roundtrip (current cfg : VenueConfig) :
    importConfig current (some (exportConfig cfg)) = (true, cfg) := rfl

/-- A plain `{id, name, color}` record, the shape of the built-in default
category and priority entries in `ConfigService.getAllCategories` /
`getAllPriorities`. -/
structure DisplayOption where
  id : String
  name : String
  color : String
deriving Repr, DecidableEq

/-- An element of the list returned by `getAllCategories`
(`ConfigService.ts`, lines 151–161): either one of the built-in default
records or a venue custom `CategoryOption` spread in unchanged. -/
inductive CatEntry where
  | base (d : DisplayOption)
  | custom (c : CategoryOption)
deriving Repr, DecidableEq

/-- An element of the list returned by `getAllPriorities`
(`ConfigService.ts`, lines 163–172). -/
inductive PrioEntry where
  | base (d : DisplayOption)
  | custom (p : PriorityOption)
deriving Repr, DecidableEq

/-- The fixed default categories of `getAllCategories`. -/
def defaultCategories : List DisplayOption :=
  [⟨"meeting", "Meeting", "#3b82f6"⟩,
   ⟨"personal", "Personal", "#10b981"⟩,
   ⟨"work", "Work", "#f59e0b"⟩,
   ⟨"other", "Other", "#6b7280"⟩]

/-- The fixed default priorities of `getAllPriorities`. -/
def defaultPriorities : List DisplayOption :=
  [⟨"high", "High", "#ef4444"⟩,
   ⟨"medium", "Medium", "#f59e0b"⟩,
   ⟨"low", "Low", "#10b981"⟩]

/-- Model of `ConfigService.getAllCategories` (`ConfigService.ts`, lines 151–161):
`[...defaultCategories, ...(cfg.customCategories || [])]`. -/
def getAllCategories (cfg : VenueConfig) : List CatEntry :=
  defaultCategories.map CatEntry.base ++
    (cfg.customCategories.getD []).map CatEntry.custom

/-- The comparator of `getAllPriorities`: `(a, b) => b.level - a.level`,
i.e. level descending. -/
def levelGE : PriorityOption → PriorityOption → Prop := fun a b => b.level ≤ a.level

instance : DecidableRel levelGE :=
  fun a b => inferInstanceAs (Decidable (b.level ≤ a.level))

instance : IsTotal PriorityOption levelGE := ⟨fun a b => Int.le_total _ _⟩

instance : IsTrans PriorityOption levelGE := ⟨fun _ _ _ hab hbc => Int.le_trans hbc hab⟩

/-- Model of `ConfigService.getAllPriorities` (`ConfigService.ts`, lines 163–172):
`[...defaultPriorities, ...custom]` with
`custom = (cfg.customPriorities || []).sort((a, b) => b.level - a.level)`
(JavaScript `Array.sort` is stable; modelled by `insertionSort`). -/
def getAllPriorities (cfg : VenueConfig) : List PrioEntry :=
  defaultPriorities.map PrioEntry.base ++
    (List.insertionSort levelGE (cfg.customPriorities.getD [])).map PrioEntry.custom

/-- The C4 claim's reading of `getAllCategories`, formalised from the
spec's words: the four defaults followed by the custom categories
filtered to `isActive == true`, in stored order. -/
def getAllCategoriesClaimed (cfg : VenueConfig) : List CatEntry :=
  defaultCategories.map CatEntry.base ++
    ((cfg.customCategories.getD []).filter (fun c => c.isActive)).map CatEntry.custom

/-- A configuration whose single custom category is inactive. -/
def cfgInactiveCat : VenueConfig where
  companyName := "Acme Events"
  logo := "A"
  tagline := none
  primaryColor := "#667eea"
  secondaryColor := "#764ba2"
  venueName := "Acme Hall"
  venueAddress := none
  venuePhone := none
  venueEmail := none
  venueWebsite := none
  locations := []
  customCategories := some [⟨"retired", "Retired", "#111111", none, false⟩]
  customPriorities := none
  defaultEventDuration := 1
  defaultCategory := "meeting"
  defaultPriority := "normal"
  timeFormat := "12h"
  dateFormat := "MM/DD/YYYY"
  firstDayOfWeek := 0
  features := ⟨true, true, true, false, false⟩

/-- Counterexample to C4: `getAllCategories` does not filter custom
categories by `isActive` — an inactive custom category still appears in
the effective list, contrary to the claim. -/
theorem getAllCategories_no_isActive_filter :
    getAllCategories cfgInactiveCat ≠ getAllCategoriesClaimed cfgInactiveCat := by
  decide

/-- C4 amended: the effective category list is the fixed default set
`meeting, personal, work, other` — exactly these four, in this order,
each with its fixed color, always present regardless of
`customCategories` content (including empty or undefined) — concatenated
with ALL of the configuration's custom categories in stored order
(`isActive` is not consulted). -/
theorem getAllCategories_spec (cfg : VenueConfig) :
    (getAllCategories cfg).take 4 =
      [CatEntry.base ⟨"meeting", "Meeting", "#3b82f6"⟩,
       CatEntry.base ⟨"personal", "Personal", "#10b981"⟩,
       CatEntry.base ⟨"work", "Work", "#f59e0b"⟩,
       CatEntry.base ⟨"other", "Other", "#6b7280"⟩] ∧
    (getAllCategories cfg).drop 4 =
      (cfg.customCategories.getD []).map CatEntry.custom := by
  exact ⟨rfl, rfl⟩

/-- A configuration whose custom priorities carry levels `[3, 9, 5]`. -/
def cfgLevels395 : VenueConfig :=
  { cfgInactiveCat with
      customCategories := none
      customPriorities := some
        [⟨"p3", "Three", "#333333", 3, true⟩,
         ⟨"p9", "Nine", "#999999", 9, true⟩,
         ⟨"p5", "Five", "#555555", 5, true⟩] }

/-- C5: the effective priority list starts with the three fixed defaults
`high, medium, low` in that order, followed by the custom priorities
sorted by `level` descending among the custom set only; custom levels
`[3, 9, 5]` come out as `9, 5, 3` after the defaults. -/
theorem getAllPriorities_spec (cfg : VenueConfig) :
    (getAllPriorities cfg).take 3 =
      [PrioEntry.base ⟨"high", "High", "#ef4444"⟩,
       PrioEntry.base ⟨"medium", "Medium", "#f59e0b"⟩,
       PrioEntry.base ⟨"low", "Low", "#10b981"⟩] ∧
    (getAllPriorities cfg).drop 3 =
      (List.insertionSort levelGE (cfg.customPriorities.getD [])).map PrioEntry.custom ∧
    (List.insertionSort levelGE (cfg.customPriorities.getD [])).Perm
      (cfg.customPriorities.getD []) ∧
    (List.insertionSort levelGE (cfg.customPriorities.getD [])).Sorted levelGE ∧
    (getAllPriorities cfgLevels395).drop 3 =
      [PrioEntry.custom ⟨"p9", "Nine", "#999999", 9, true⟩,
       PrioEntry.custom ⟨"p5", "Five", "#555555", 5, true⟩,
       PrioEntry.custom ⟨"p3", "Three", "#333333", 3, true⟩] :=
  ⟨rfl, rfl, List.perm_insertionSort levelGE _,
    List.sorted_insertionSort levelGE _, by decide⟩

/-- The system default configuration `DEFAULT_CONFIG`
(`models/VenueConfig`, "Default configuration for new installations"). -/
def DEFAULT_CONFIG : VenueConfig where
  companyName := "Event Planner"
  logo := "📅"
  tagline := some "Organize your events with ease"
  primaryColor := "#667eea"
  secondaryColor := "#764ba2"
  venueName := "Main Venue"
  venueAddress := some ""
  venuePhone := some ""
  venueEmail := some ""
  venueWebsite := some ""
  locations :=
    [⟨"main-hall", "Main Hall", some "Large conference hall with A/V equipment",
      some 200, some ["Projector", "Sound System", "WiFi", "Air Conditioning"], true⟩,
     ⟨"meeting-room-a", "Meeting Room A", some "Small meeting room for team discussions",
      some 12, some ["Whiteboard", "WiFi", "Conference Phone"], true⟩,
     ⟨"meeting-room-b", "Meeting Room B", some "Medium meeting room with presentation setup",
      some 20, some ["TV Display", "WiFi", "Video Conferencing"], true⟩,
     ⟨"outdoor-space", "Outdoor Patio", some "Covered outdoor area for social events",
      some 50, some ["Tables", "Chairs", "Lighting"], true⟩,
     ⟨"virtual", "Virtual/Online", some "Online meeting or webinar", none, none, true⟩]
  customCategories := some
    [⟨"training", "Training", "#10b981", some "🎓", true⟩,
     ⟨"workshop", "Workshop", "#f59e0b", some "🔨", true⟩,
     ⟨"conference", "Conference", "#3b82f6", some "🎤", true⟩]
  customPriorities := some
    [⟨"critical", "Critical", "#dc2626", 10, true⟩,
     ⟨"important", "Important", "#f59e0b", 7, true⟩,
     ⟨"normal", "Normal", "#6b7280", 5, true⟩,
     ⟨"low", "Low", "#10b981", 2, true⟩]
  defaultEventDuration := 1
  defaultCategory := "meeting"
  defaultPriority := "normal"
  timeFormat := "12h"
  dateFormat := "MM/DD/YYYY"
  firstDayOfWeek := 0
  features := ⟨true, true, true, false, false⟩

/-- The C9 claim's reading of import, formalised from the spec's words:
a parseable document is merged over the SYSTEM DEFAULTS, so that missing
top-level fields come out as the default values. -/
def importConfigClaimed (current : VenueConfig) (doc : Option ConfigPatch) :
    Bool × VenueConfig :=
  match doc with
  | none => (false, current)
  | some p => (true, mergeConfig DEFAULT_CONFIG p)

/-- A current configuration that differs from the system defaults. -/
def currentAcme : VenueConfig :=
  { DEFAULT_CONFIG with companyName := "Acme Venue Co" }

/-- Counterexample to C9: importing a parseable document with all
top-level fields missing fills them from the CURRENT configuration, not
from the system defaults — here `companyName` stays `"Acme Venue Co"`
instead of reverting to the default `"Event Planner"`. -/
theorem importConfig_fills_from_current :
    importConfig currentAcme (some {}) ≠ importConfigClaimed currentAcme (some {}) := by
  decide

/-- C9 amended: a parseable but structurally incomplete document is
accepted (result `true`) with its missing top-level fields filled from
the CURRENT configuration (the same shallow-merge rule as
`updateConfig`); in particular a document with no fields at all leaves
the configuration unchanged; a document that fails to parse produces the
failure result `false` and leaves the configuration completely
unchanged. -/
theorem importConfig_spec (current : VenueConfig) (p : ConfigPatch) :
    importConfig current (some p) = (true, mergeConfig current p) ∧
    importConfig current (some {}) = (true, current) ∧
    importConfig current none = (false, current) :=
  ⟨rfl, rfl, rfl⟩

/-- The four dashboard statistics of `Dashboard.updateStats`. -/
structure Stats where
  total : Nat
  today : Nat
  upcoming : Nat
  urgent : Nat
deriving Repr, DecidableEq

/-- Model of `Dashboard.updateStats` (`part_000`, lines 343–355): `total` is the
event count; `today` the length of `getEventsForDate(new Date())`;
`upcoming` counts events with `startDate` strictly after today's
midnight (`today.setHours(0,0,0,0); eventDate > today`); `urgent` counts
events with `priority === 'urgent'` and `startDate >= new Date()`. -/
def updateStats (events : List Event) (now : DateTime) : Stats where
  total := events.length
  today := (getEventsForDate events now).length
  upcoming :=
    (events.filter (fun e => decide ((startOfDay now).toMin < e.startDate.toMin))).length
  urgent :=
    (events.filter (fun e => e.priority == "urgent" && decide (now.toMin ≤ e.startDate.toMin))).length

/-- C6: the stats computation yields `total` = number of events,
`today` = number of events returned by the events-on-date query for
today, `upcoming` = count of events starting strictly after
`startOfDay(today)`, and `urgent` = count of events with priority
`urgent` starting at or after now — four independent passes over the
same collection. -/
theorem updateStats_spec (events : List Event) (now : DateTime) :
    (updateStats events now).total = events.length ∧
    (updateStats events now).today = (getEventsForDate events now).length ∧
    (updateStats events now).today = events.countP (onDate now) ∧
    (updateStats events now).upcoming =
      events.countP (fun e => decide ((startOfDay now).toMin < e.startDate.toMin)) ∧
    (updateStats events now).urgent =
      events.countP (fun e => e.priority == "urgent" && decide (now.toMin ≤ e.startDate.toMin)) := by
  refine ⟨rfl, rfl, ?_, ?_, ?_⟩
  · rw [List.countP_eq_length_filter]
    exact (getEventsForDate_perm events now).length_eq
  · rw [List.countP_eq_length_filter]
    rfl
  · rw [List.countP_eq_length_filter]
    rfl

/-- Model of `ConfigPage.addPriority` (`part_001`, lines 761–778): build a new
priority with `level: Math.max(1, Math.min(10, level))`, color
`#6b7280`, `isActive: true`, and push it onto `customPriorities`
(initialising the list when absent).  The generated id is
`'priority-' + Date.now()`; the numeric suffix is a parameter here. -/
def addPriority (cfg : VenueConfig) (name : String) (idSuffix : String) (level : Int) :
    VenueConfig :=
  let entry : PriorityOption :=
    ⟨"priority-" ++ idSuffix, name, "#6b7280", max 1 (min 10 level), true⟩
  { cfg with customPriorities := some (cfg.customPriorities.getD [] ++ [entry]) }

/-- C10: every priority created through the configuration page's
add-priority operation with a numeric level input is stored with level
`max(1, min(10, input))`, which lies in `[1, 10]`; every priority in the
resulting list was either already stored or has its level in range. -/
theorem addPriority_spec (cfg : VenueConfig) (name idSuffix : String) (n : Int) :
    (addPriority cfg name idSuffix n).customPriorities =
      some (cfg.customPriorities.getD [] ++
        [⟨"priority-" ++ idSuffix, name, "#6b7280", max 1 (min 10 n), true⟩]) ∧
    1 ≤ max 1 (min 10 n) ∧ max 1 (min 10 n) ≤ 10 ∧
    (∀ p ∈ ((addPriority cfg name idSuffix n).customPriorities.getD []),
      p ∈ cfg.customPriorities.getD [] ∨ (1 ≤ p.level ∧ p.level ≤ 10)) := by
  refine ⟨rfl, le_max_left _ _, ?_, ?_⟩
  · omega
  · intro p hp
    simp only [addPriority, Option.getD_some, List.mem_append, List.mem_singleton] at hp
    rcases hp with hp | rfl
    · exact Or.inl hp
    · refine Or.inr ⟨le_max_left _ _, ?_⟩
      show max 1 (min 10 n) ≤ 10
      omega

end EventPlanner
